import Mathlib

/-!
# Verification of the Interior Design Quotation backend

Shallow embedding of `src/main.py` and `src/schemas.py`:
pydantic models become structures, the Mongo-backed document store becomes
an explicit list of stored records threaded through each operation, and
`HTTPException` becomes an `Except Err` result.  Nondeterminism of the
store (fresh ids, timestamps) is resolved by explicit parameters.
Monetary amounts (floats in the source) are modelled as rationals;
timestamps as integers.
-/

namespace QuotationAPI

/-- `ObjectId.is_valid` from the external `bson` library, on strings: a
string is a well-formed ObjectId iff it is exactly 24 hexadecimal
characters.  This is the validity predicate the spec calls `is_valid_id`. -/
def isValidId (s : String) : Bool :=
  s.length == 24 && s.toList.all (fun c => c.isDigit || ('a' ≤ c && c ≤ 'f') || ('A' ≤ c && c ≤ 'F'))

/-- An `HTTPException`: status code and detail message. -/
structure Err where
  status_code : Nat
  detail : String
deriving DecidableEq, Repr

/-- A stored document: schema payload plus the store-assigned `_id` and
`created_at` timestamp. -/
structure Stored (β : Type) where
  _id : String
  data : β
  created_at : Int
deriving DecidableEq, Repr

/-- `QuotationItem` from `schemas.py`. -/
structure QuotationItem where
  package_id : String
  name : Option String
  quantity : Nat
  unit_price : ℚ
  total : ℚ
deriving DecidableEq, Repr

/-- The `status` literal of `Quotation`. -/
inductive QStatus
  | draft
  | sent
  | approved
  | rejected
deriving DecidableEq, Repr

/-- String value of a quotation status, as stored. -/
def statusStr : QStatus → String
  | .draft => "draft"
  | .sent => "sent"
  | .approved => "approved"
  | .rejected => "rejected"

/-- `Quotation` from `schemas.py`. -/
structure Quotation where
  employee_id : String
  client_name : String
  client_contact : Option String
  house_category_id : Option String
  subcategory_id : Option String
  items : List QuotationItem
  subtotal : ℚ
  discount : ℚ
  tax : ℚ
  total : ℚ
  status : QStatus
  notes : Option String
deriving DecidableEq, Repr

/-- `Subcategory` from `schemas.py`. -/
structure Subcategory where
  name : String
  description : Option String
  category_id : String
  is_active : Bool
deriving DecidableEq, Repr

/-- `Package` from `schemas.py`. -/
structure Package where
  name : String
  description : Option String
  category_id : Option String
  subcategory_id : Option String
  features : List String
  price : ℚ
  is_active : Bool
deriving DecidableEq, Repr

/-- `User` from `schemas.py` (role is a literal string in the source). -/
structure User where
  name : String
  email : String
  role : String
  phone : Option String
  avatar_url : Option String
  is_active : Bool
deriving DecidableEq, Repr

/-- Python truthiness of an `Optional[str]`: `None` and the empty string
are falsy.  Used by the source wherever it writes `if some_optional_str:`. -/
def truthy : Option String → Bool
  | none => false
  | some s => !s.isEmpty

/-- The sum of `item.total` over the items
(`sum([item.total for item in quotation.items]) if quotation.items else 0`;
the `else 0` branch coincides with the empty sum). -/
def computedSubtotal (q : Quotation) : ℚ :=
  (q.items.map (fun it => it.total)).sum

/-- `create_quotation` from `main.py` (POST /api/quotations).  Validates
reference ids, applies the subtotal-override decision rule, and inserts.
`fid` is the fresh id and `now` the timestamp the store would assign. -/
def create_quotation (q : Quotation) (fid : String) (now : Int)
    (store : List (Stored Quotation)) :
    Except Err (Stored Quotation) × List (Stored Quotation) :=
  if !isValidId q.employee_id then
    (.error ⟨400, "Invalid employee_id"⟩, store)
  else if truthy q.house_category_id && !isValidId (q.house_category_id.getD "") then
    (.error ⟨400, "Invalid house_category_id"⟩, store)
  else if truthy q.subcategory_id && !isValidId (q.subcategory_id.getD "") then
    (.error ⟨400, "Invalid subcategory_id"⟩, store)
  else
    let subtotal := computedSubtotal q
    let payload :=
      if q.subtotal == 0 && !(subtotal == 0) then
        { q with subtotal := subtotal, total := subtotal - q.discount + q.tax }
      else q
    let doc : Stored Quotation := ⟨fid, payload, now⟩
    (.ok doc, store ++ [doc])

/-- `create_subcategory` from `main.py` (POST /api/subcategories). -/
def create_subcategory (sub : Subcategory) (fid : String) (now : Int)
    (store : List (Stored Subcategory)) :
    Except Err (Stored Subcategory) × List (Stored Subcategory) :=
  if !isValidId sub.category_id then
    (.error ⟨400, "Invalid category_id"⟩, store)
  else
    let doc : Stored Subcategory := ⟨fid, sub, now⟩
    (.ok doc, store ++ [doc])

/-- `create_package` from `main.py` (POST /api/packages). -/
def create_package (pkg : Package) (fid : String) (now : Int)
    (store : List (Stored Package)) :
    Except Err (Stored Package) × List (Stored Package) :=
  if truthy pkg.category_id && !isValidId (pkg.category_id.getD "") then
    (.error ⟨400, "Invalid category_id"⟩, store)
  else if truthy pkg.subcategory_id && !isValidId (pkg.subcategory_id.getD "") then
    (.error ⟨400, "Invalid subcategory_id"⟩, store)
  else
    let doc : Stored Package := ⟨fid, pkg, now⟩
    (.ok doc, store ++ [doc])

/-- `get_quotation` from `main.py` (GET /api/quotations/{id}). -/
def get_quotation (qid : String) (store : List (Stored Quotation)) :
    Except Err (Stored Quotation) :=
  if !isValidId qid then
    .error ⟨400, "Invalid id"⟩
  else
    match store.find? (fun d => d._id == qid) with
    | none => .error ⟨404, "Not found"⟩
    | some d => .ok d

/-! ## Generic CRUD utilities (`update_by_id`, `delete_by_id`)

The `PUT`/`DELETE` endpoints of every resource delegate to these.  A store
document is here a schema-free field map (`dict` in the source), since the
update payload is an arbitrary field map. -/

/-- A schema-free stored document: `_id` plus a field map (association
list, first binding wins, as a Python dict has unique keys). -/
structure Doc (α : Type) where
  _id : String
  fields : List (String × α)
deriving DecidableEq, Repr

/-- Dict lookup. -/
def getField (fs : List (String × α)) (k : String) : Option α :=
  match fs with
  | [] => none
  | (k₁, v) :: rest => if k₁ == k then some v else getField rest k

/-- Dict assignment `fs[k] = v`: replace the binding if the key is
present, else append it. -/
def setField (fs : List (String × α)) (k : String) (v : α) : List (String × α) :=
  match fs with
  | [] => [(k, v)]
  | (k₁, v₁) :: rest => if k₁ == k then (k, v) :: rest else (k₁, v₁) :: setField rest k v

/-- Mongo `$set`: assign every binding of the payload in order. -/
def applySet (fs payload : List (String × α)) : List (String × α) :=
  payload.foldl (fun acc kv => setField acc kv.1 kv.2) fs

/-- `update_by_id` from `main.py`: validate the id, stamp
`payload["updated_at"]`, then `find_one_and_update` with `$set` (returning
the document after the update).  `now` is the value written to
`updated_at`. -/
def update_by_id (store : List (Doc α)) (_id : String)
    (payload : List (String × α)) (now : α) :
    Except Err (Doc α) × List (Doc α) :=
  if !isValidId _id then
    (.error ⟨400, "Invalid id"⟩, store)
  else
    let payload1 := setField payload "updated_at" now
    match store.find? (fun d => d._id == _id) with
    | none => (.error ⟨404, "Not found"⟩, store)
    | some d =>
        let d1 : Doc α := ⟨d._id, applySet d.fields payload1⟩
        (.ok d1, store.map (fun e => if e._id == _id then d1 else e))

/-- Remove the first document with the given id (Mongo `delete_one`
deletes at most one document). -/
def removeFirst (store : List (Doc α)) (_id : String) : List (Doc α) :=
  match store with
  | [] => []
  | d :: rest => if d._id == _id then rest else d :: removeFirst rest _id

/-- `delete_by_id` from `main.py`: validate the id, `delete_one`, 404 when
`deleted_count == 0`. -/
def delete_by_id (store : List (Doc α)) (_id : String) :
    Except Err Bool × List (Doc α) :=
  if !isValidId _id then
    (.error ⟨400, "Invalid id"⟩, store)
  else if store.any (fun d => d._id == _id) then
    (.ok true, removeFirst store _id)
  else
    (.error ⟨404, "Not found"⟩, store)

/-! ## List endpoints -/

/-- Newest-created-first comparison handed to the sort
(`.sort("created_at", -1)`). -/
def newestFirst (a b : Stored β) : Bool :=
  b.created_at ≤ a.created_at

/-- The Mongo query built by `list_quotations`: a filter key is included
only when the query parameter is truthy (`if employee_id:` skips `None`
and the empty string); a document matches when every included key is
equal. -/
def quotationMatches (eid sid : Option String) (d : Stored Quotation) : Bool :=
  (!truthy eid || d.data.employee_id == eid.getD "") &&
  (!truthy sid || statusStr d.data.status == sid.getD "")

/-- `list_quotations` from `main.py` (GET /api/quotations): filter,
sorted newest-created-first.  The endpoint body raises no exception. -/
def list_quotations (eid sid : Option String) (store : List (Stored Quotation)) :
    Except Err (List (Stored Quotation)) :=
  .ok ((store.filter (quotationMatches eid sid)).mergeSort newestFirst)

/-- `list_users` from `main.py` (GET /api/users): optional truthy role
filter, sorted newest-created-first. -/
def list_users (role : Option String) (store : List (Stored User)) :
    List (Stored User) :=
  (store.filter (fun d => !truthy role || d.data.role == role.getD "")).mergeSort newestFirst

/-! ## Performance aggregator -/

/-- `timedelta(days=30)`, in seconds. -/
def thirtyDays : Int := 2592000

/-- The four-field aggregate returned by GET /api/performance. -/
structure Perf where
  total_quotations : Nat
  last30_quotations : Nat
  total_revenue : ℚ
  avg_quote_value : ℚ
deriving DecidableEq, Repr

/-- `performance` from `main.py`: validate `employee_id`;
`total_quotations` counts all of the employee's quotations;
`last30_quotations` those with `created_at >= now - 30 days`; the
`$group` aggregation yields no row over an empty match, so revenue and
average stay at their initial 0 (no division is performed then). -/
def performance (eid : String) (now : Int) (store : List (Stored Quotation)) :
    Except Err Perf :=
  if !isValidId eid then
    .error ⟨400, "Invalid employee_id"⟩
  else
    let matching := store.filter (fun d => d.data.employee_id == eid)
    let last30 := store.filter
      (fun d => d.data.employee_id == eid && now - thirtyDays ≤ d.created_at)
    let totals := matching.map (fun d => d.data.total)
    if matching.isEmpty then
      .ok ⟨matching.length, last30.length, 0, 0⟩
    else
      .ok ⟨matching.length, last30.length, totals.sum, totals.sum / matching.length⟩

/-! ## Concrete inputs used by witnesses -/

/-- A well-formed ObjectId (24 hex characters). -/
def vid : String := "aaaaaaaaaaaaaaaaaaaaaaaa"

/-- Another well-formed ObjectId, used as a fresh store id. -/
def vid2 : String := "bbbbbbbbbbbbbbbbbbbbbbbb"

/-- Quotation create request with items totalling 150, supplied
subtotal 0 (sentinel), discount 10, tax 5. -/
def exQ1 : Quotation :=
  { employee_id := vid
    client_name := "Client A"
    client_contact := none
    house_category_id := none
    subcategory_id := none
    items := [⟨vid2, none, 1, 100, 100⟩, ⟨vid2, none, 1, 50, 50⟩]
    subtotal := 0
    discount := 10
    tax := 5
    total := 0
    status := .draft
    notes := none }

/-- Quotation create request with one item totalling 100 but supplied
subtotal 200 and total 200: the caller-supplied figures must win. -/
def exQ2 : Quotation :=
  { exQ1 with
    items := [⟨vid2, none, 1, 100, 100⟩]
    subtotal := 200
    discount := 0
    tax := 0
    total := 200 }

/-! ## C1 / C2: the subtotal-override decision rule -/

/-- C1: a quotation create that passes reference validation, has
caller-supplied `subtotal = 0`, and whose items' `total` fields sum to a
nonzero `S`, stores a record with `subtotal = S` and
`total = S - discount + tax`. -/
theorem create_overrides_zero_subtotal (q : Quotation) (fid : String) (now : Int)
    (store : List (Stored Quotation))
    (hemp : isValidId q.employee_id = true)
    (hhc : truthy q.house_category_id = true → isValidId (q.house_category_id.getD "") = true)
    (hsc : truthy q.subcategory_id = true → isValidId (q.subcategory_id.getD "") = true)
    (hsub : q.subtotal = 0)
    (hS : computedSubtotal q ≠ 0) :
    ∃ doc : Stored Quotation,
      create_quotation q fid now store = (.ok doc, store ++ [doc]) ∧
      doc.data.subtotal = computedSubtotal q ∧
      doc.data.total = computedSubtotal q - q.discount + q.tax := by
  have h2 : (truthy q.house_category_id && !isValidId (q.house_category_id.getD "")) = false := by
    cases htr : truthy q.house_category_id
    · simp
    · simp [hhc htr]
  have h3 : (truthy q.subcategory_id && !isValidId (q.subcategory_id.getD "")) = false := by
    cases htr : truthy q.subcategory_id
    · simp
    · simp [hsc htr]
  refine ⟨⟨fid, { q with subtotal := computedSubtotal q,
                         total := computedSubtotal q - q.discount + q.tax }, now⟩, ?_, rfl, rfl⟩
  simp [create_quotation, hemp, h2, h3, hsub, hS]

/-- C1 witness: the spec's worked example (items [100, 50], subtotal 0,
discount 10, tax 5) stores subtotal 150 and total 145. -/
theorem create_overrides_zero_subtotal_witness :
    isValidId exQ1.employee_id = true ∧
    exQ1.subtotal = 0 ∧
    computedSubtotal exQ1 ≠ 0 ∧
    ∃ doc : Stored Quotation,
      create_quotation exQ1 vid2 0 [] = (.ok doc, [] ++ [doc]) ∧
      doc.data.subtotal = computedSubtotal exQ1 ∧
      doc.data.total = computedSubtotal exQ1 - exQ1.discount + exQ1.tax :=
  ⟨by decide, by norm_num [exQ1], by norm_num [computedSubtotal, exQ1],
    create_overrides_zero_subtotal exQ1 vid2 0 []
      (by decide) (by decide) (by decide) (by norm_num [exQ1])
      (by norm_num [computedSubtotal, exQ1])⟩

/-- C2: a quotation create that passes reference validation and does not
trigger the sentinel (supplied subtotal nonzero, or items summing to 0)
stores the caller-supplied record unchanged; in particular the stored
subtotal and total are exactly the supplied ones. -/
theorem create_keeps_supplied_totals (q : Quotation) (fid : String) (now : Int)
    (store : List (Stored Quotation))
    (hemp : isValidId q.employee_id = true)
    (hhc : truthy q.house_category_id = true → isValidId (q.house_category_id.getD "") = true)
    (hsc : truthy q.subcategory_id = true → isValidId (q.subcategory_id.getD "") = true)
    (hno : q.subtotal ≠ 0 ∨ computedSubtotal q = 0) :
    ∃ doc : Stored Quotation,
      create_quotation q fid now store = (.ok doc, store ++ [doc]) ∧
      doc.data = q ∧
      doc.data.subtotal = q.subtotal ∧
      doc.data.total = q.total := by
  have h2 : (truthy q.house_category_id && !isValidId (q.house_category_id.getD "")) = false := by
    cases htr : truthy q.house_category_id
    · simp
    · simp [hhc htr]
  have h3 : (truthy q.subcategory_id && !isValidId (q.subcategory_id.getD "")) = false := by
    cases htr : truthy q.subcategory_id
    · simp
    · simp [hsc htr]
  have h4 : (q.subtotal == 0 && !(computedSubtotal q == 0)) = false := by
    rcases hno with h | h
    · simp [h]
    · simp [h]
  refine ⟨⟨fid, q, now⟩, ?_, rfl, rfl, rfl⟩
  simp [create_quotation, hemp, h2, h3, h4]

/-- C2 witness: the spec's worked example (items [100], supplied
subtotal 200) stores subtotal 200 and total 200 unchanged. -/
theorem create_keeps_supplied_totals_witness :
    isValidId exQ2.employee_id = true ∧
    (exQ2.subtotal ≠ 0 ∨ computedSubtotal exQ2 = 0) ∧
    ∃ doc : Stored Quotation,
      create_quotation exQ2 vid2 0 [] = (.ok doc, [] ++ [doc]) ∧
      doc.data = exQ2 ∧
      doc.data.subtotal = exQ2.subtotal ∧
      doc.data.total = exQ2.total :=
  ⟨by decide, Or.inl (by norm_num [exQ2, exQ1]),
    create_keeps_supplied_totals exQ2 vid2 0 []
      (by decide) (by decide) (by decide) (Or.inl (by norm_num [exQ2, exQ1]))⟩

/-! ## C3: ill-formed ids and the 400 rejection -/

/-- Quotation create request whose optional `house_category_id` is the
empty string: falsy in Python, so `create_quotation` skips its validity
check. -/
def exQ3 : Quotation :=
  { exQ1 with house_category_id := some "", subtotal := 1, total := 1 }

/-- If any of the three reference checks of `create_quotation` fires, the
request is rejected with a 400 error and the store is unchanged. -/
theorem create_quotation_check_fires (q : Quotation) (fid : String) (now : Int)
    (store : List (Stored Quotation))
    (h : isValidId q.employee_id = false ∨
      (truthy q.house_category_id && !isValidId (q.house_category_id.getD "")) = true ∨
      (truthy q.subcategory_id && !isValidId (q.subcategory_id.getD "")) = true) :
    ∃ e : Err, create_quotation q fid now store = (.error e, store) ∧ e.status_code = 400 := by
  cases h1 : isValidId q.employee_id
  · exact ⟨⟨400, "Invalid employee_id"⟩, by simp [create_quotation, h1], rfl⟩
  · cases h2 : (truthy q.house_category_id && !isValidId (q.house_category_id.getD ""))
    · have h3 : (truthy q.subcategory_id && !isValidId (q.subcategory_id.getD "")) = true := by
        rcases h with h | h | h
        · rw [h1] at h; cases h
        · rw [h2] at h; cases h
        · exact h
      exact ⟨⟨400, "Invalid subcategory_id"⟩, by simp [create_quotation, h1, h2, h3], rfl⟩
    · exact ⟨⟨400, "Invalid house_category_id"⟩, by simp [create_quotation, h1, h2], rfl⟩

/-- C3 counterexample: the claim fails as stated.  The ill-formed id
`"x"` supplied as the `employee_id` *filter* of the list endpoint is not
rejected (the endpoint answers 200 with a result list), and the
ill-formed (empty) id `""` supplied as the optional `house_category_id`
of a quotation create is skipped by the truthiness guard: the create
succeeds and mutates the store. -/
theorem invalid_id_not_always_rejected :
    isValidId "x" = false ∧
    list_quotations (some "x") none [] = .ok [] ∧
    isValidId "" = false ∧
    (create_quotation exQ3 vid2 7 []).1.isOk = true ∧
    (create_quotation exQ3 vid2 7 []).2.length = 1 := by
  exact ⟨by decide, by simp [list_quotations], by decide, by decide, by decide⟩

/-- C3 (amended): an ill-formed id is rejected with a 400 error before
any store mutation wherever the source validates it: as the required
`employee_id` of a quotation create, as a nonempty optional
`house_category_id`/`subcategory_id` of a quotation create, as the
required `category_id` of a subcategory create, as a nonempty optional
`category_id`/`subcategory_id` of a package create, and as the path id of
get/update/delete.  Filter ids of the list endpoints are not validated,
and an empty-string optional reference is skipped rather than rejected. -/
theorem invalid_id_rejected_before_mutation (x : String) (hx : isValidId x = false) :
    (∀ (q : Quotation) (fid : String) (now : Int) (store : List (Stored Quotation)),
      q.employee_id = x →
      create_quotation q fid now store = (.error ⟨400, "Invalid employee_id"⟩, store)) ∧
    (∀ (q : Quotation) (fid : String) (now : Int) (store : List (Stored Quotation)),
      q.house_category_id = some x → x ≠ "" →
      ∃ e : Err, create_quotation q fid now store = (.error e, store) ∧ e.status_code = 400) ∧
    (∀ (q : Quotation) (fid : String) (now : Int) (store : List (Stored Quotation)),
      q.subcategory_id = some x → x ≠ "" →
      ∃ e : Err, create_quotation q fid now store = (.error e, store) ∧ e.status_code = 400) ∧
    (∀ (sub : Subcategory) (fid : String) (now : Int) (store : List (Stored Subcategory)),
      sub.category_id = x →
      create_subcategory sub fid now store = (.error ⟨400, "Invalid category_id"⟩, store)) ∧
    (∀ (pkg : Package) (fid : String) (now : Int) (store : List (Stored Package)),
      pkg.category_id = some x → x ≠ "" →
      ∃ e : Err, create_package pkg fid now store = (.error e, store) ∧ e.status_code = 400) ∧
    (∀ (pkg : Package) (fid : String) (now : Int) (store : List (Stored Package)),
      pkg.subcategory_id = some x → x ≠ "" →
      ∃ e : Err, create_package pkg fid now store = (.error e, store) ∧ e.status_code = 400) ∧
    (∀ store : List (Stored Quotation), get_quotation x store = .error ⟨400, "Invalid id"⟩) ∧
    (∀ (α : Type) (store : List (Doc α)) (payload : List (String × α)) (now : α),
      update_by_id store x payload now = (.error ⟨400, "Invalid id"⟩, store)) ∧
    (∀ (α : Type) (store : List (Doc α)), delete_by_id store x = (.error ⟨400, "Invalid id"⟩, store)) := by
  have hne : ∀ y : String, y ≠ "" → truthy (some y) = true := by
    intro y hy
    have h1 : y.isEmpty = false := by
      cases h2 : y.isEmpty
      · rfl
      · exact absurd ((String.isEmpty_iff y).mp h2) hy
    simp [truthy, h1]
  refine ⟨?_, ?_, ?_, ?_, ?_, ?_, ?_, ?_, ?_⟩
  · intro q fid now store hq
    simp [create_quotation, hq, hx]
  · intro q fid now store hq hxne
    exact create_quotation_check_fires q fid now store
      (Or.inr (Or.inl (by simp [hq, hne x hxne, hx])))
  · intro q fid now store hq hxne
    exact create_quotation_check_fires q fid now store
      (Or.inr (Or.inr (by simp [hq, hne x hxne, hx])))
  · intro sub fid now store hq
    simp [create_subcategory, hq, hx]
  · intro pkg fid now store hq hxne
    refine ⟨⟨400, "Invalid category_id"⟩, ?_, rfl⟩
    simp [create_package, hq, hne x hxne, hx]
  · intro pkg fid now store hq hxne
    cases h2 : (truthy pkg.category_id && !isValidId (pkg.category_id.getD ""))
    · refine ⟨⟨400, "Invalid subcategory_id"⟩, ?_, rfl⟩
      simp [create_package, h2, hq, hne x hxne, hx]
    · refine ⟨⟨400, "Invalid category_id"⟩, ?_, rfl⟩
      simp [create_package, h2]
  · intro store
    simp [get_quotation, hx]
  · intro α store payload now
    simp [update_by_id, hx]
  · intro α store
    simp [delete_by_id, hx]

/-- C3 witness: the amended theorem applied to the ill-formed id `"x"`
and a concrete delete. -/
theorem invalid_id_rejected_before_mutation_witness :
    isValidId "x" = false ∧
    delete_by_id ([] : List (Doc Nat)) "x" = (.error ⟨400, "Invalid id"⟩, []) :=
  ⟨by decide,
    (invalid_id_rejected_before_mutation "x" (by decide)).2.2.2.2.2.2.2.2 Nat []⟩

/-! ## C4 / C6 / C9: the performance aggregator -/

/-- A stored quotation for employee `vid`, created at time 40. -/
def exDoc : Stored Quotation := ⟨vid2, exQ1, 40⟩

/-- The aggregate over the one-document store `[exDoc]` at time 100:
one quotation, one in the window, revenue and mean 0 (the supplied total
of `exQ1` is 0). -/
theorem perf_exDoc : performance vid 100 [exDoc] = .ok ⟨1, 1, 0, 0⟩ := by
  have h1 : isValidId vid = true := by decide
  norm_num [performance, exDoc, exQ1, h1, thirtyDays]

/-- Filtering by a conjunction yields at most as many elements as
filtering by the first conjunct alone. -/
theorem length_filter_and_le (l : List α) (p q : α → Bool) :
    (l.filter (fun a => p a && q a)).length ≤ (l.filter p).length := by
  induction l with
  | nil => simp
  | cons a t ih =>
    cases hp : p a <;> cases hq : q a <;>
      simp [List.filter_cons, hp, hq] <;> omega

/-- C4: when every stored creation timestamp is at most the evaluation
time `now` (they are assigned by the store at insert time, never in the
future), `last30_quotations` counts exactly the employee's quotations
created within the trailing window `[now − 30 days, now]`. -/
theorem last30_counts_trailing_window (eid : String) (now : Int)
    (store : List (Stored Quotation)) (p : Perf)
    (hts : ∀ d ∈ store, d.created_at ≤ now)
    (hp : performance eid now store = .ok p) :
    p.last30_quotations =
      (store.filter (fun d => d.data.employee_id == eid &&
        (now - thirtyDays ≤ d.created_at && d.created_at ≤ now))).length := by
  have hfilter : store.filter
        (fun d => d.data.employee_id == eid && now - thirtyDays ≤ d.created_at)
      = store.filter (fun d => d.data.employee_id == eid &&
        (now - thirtyDays ≤ d.created_at && d.created_at ≤ now)) := by
    refine List.filter_congr ?_
    intro d hd
    have h1 : d.created_at ≤ now := hts d hd
    simp [h1]
  rw [performance] at hp
  cases h1 : isValidId eid <;> rw [h1] at hp
  · simp at hp
  · simp only [Bool.not_true, Bool.false_eq_true, if_false] at hp
    split at hp <;>
    · injection hp with hp1
      subst hp1
      simpa using congrArg List.length hfilter

/-- C4 witness: the trailing-window count over `[exDoc]` at time 100. -/
theorem last30_counts_trailing_window_witness :
    (∀ d ∈ [exDoc], d.created_at ≤ 100) ∧
    ∃ p : Perf, performance vid 100 [exDoc] = .ok p ∧
      p.last30_quotations =
        (List.filter (fun d => d.data.employee_id == vid &&
          (100 - thirtyDays ≤ d.created_at && d.created_at ≤ 100)) [exDoc]).length :=
  ⟨by decide, ⟨1, 1, 0, 0⟩, perf_exDoc,
    last30_counts_trailing_window vid 100 [exDoc] ⟨1, 1, 0, 0⟩ (by decide) perf_exDoc⟩

/-- C6: for an employee none of whose quotations are in the store, the
performance endpoint returns all four fields 0; the mean is the initial
0, no division being performed (the aggregation yields no row). -/
theorem performance_zero_quotations (eid : String) (now : Int)
    (store : List (Stored Quotation))
    (hv : isValidId eid = true)
    (hnone : ∀ d ∈ store, d.data.employee_id ≠ eid) :
    performance eid now store = .ok ⟨0, 0, 0, 0⟩ := by
  have hmatch : store.filter (fun d => d.data.employee_id == eid) = [] := by
    rw [List.filter_eq_nil_iff]
    intro d hd
    simp [hnone d hd]
  simp [performance, hv, hmatch]
  intro a ha h
  exact absurd h (hnone a ha)

/-- C6 witness: the empty store. -/
theorem performance_zero_quotations_witness :
    isValidId vid = true ∧
    (∀ d ∈ ([] : List (Stored Quotation)), d.data.employee_id ≠ vid) ∧
    performance vid 0 [] = .ok ⟨0, 0, 0, 0⟩ :=
  ⟨by decide, by simp,
    performance_zero_quotations vid 0 [] (by decide) (by simp)⟩

/-- C9: whatever the store and employee, a successful performance
aggregate has `last30_quotations ≤ total_quotations`: the windowed count
filters a subset of the same employee's quotations. -/
theorem last30_le_total (eid : String) (now : Int)
    (store : List (Stored Quotation)) (p : Perf)
    (hp : performance eid now store = .ok p) :
    p.last30_quotations ≤ p.total_quotations := by
  rw [performance] at hp
  cases h1 : isValidId eid <;> rw [h1] at hp
  · simp at hp
  · simp only [Bool.not_true, Bool.false_eq_true, if_false] at hp
    split at hp <;>
    · injection hp with hp1
      subst hp1
      simpa using length_filter_and_le store
        (fun d => d.data.employee_id == eid) (fun d => now - thirtyDays ≤ d.created_at)

/-- C9 witness: the one-document store. -/
theorem last30_le_total_witness :
    ∃ p : Perf, performance vid 100 [exDoc] = .ok p ∧
      p.last30_quotations ≤ p.total_quotations :=
  ⟨⟨1, 1, 0, 0⟩, perf_exDoc, last30_le_total vid 100 [exDoc] ⟨1, 1, 0, 0⟩ perf_exDoc⟩

/-! ## C5: update is a frame-preserving partial merge -/

/-- Assigning key `k1` leaves the binding of any other key unchanged. -/
theorem getField_setField_ne (fs : List (String × α)) (k k1 : String) (v : α)
    (h : k1 ≠ k) : getField (setField fs k1 v) k = getField fs k := by
  induction fs with
  | nil => simp [setField, getField, h]
  | cons kv t ih =>
    rw [setField]
    by_cases h2 : kv.1 == k1
    · have h3 : kv.1 = k1 := by simpa using h2
      simp [getField, h2, h3, h]
    · rw [if_neg h2]
      rw [getField, getField, ih]

/-- `$set` with a payload leaves every key outside the payload
unchanged. -/
theorem getField_applySet_of_not_mem (fs payload : List (String × α)) (k : String)
    (hk : ∀ kv ∈ payload, kv.1 ≠ k) :
    getField (applySet fs payload) k = getField fs k := by
  induction payload generalizing fs with
  | nil => rfl
  | cons kv t ih =>
    have h1 : applySet fs (kv :: t) = applySet (setField fs kv.1 kv.2) t := rfl
    rw [h1, ih _ (fun kv2 h2 => hk kv2 (List.mem_cons_of_mem _ h2)),
      getField_setField_ne _ _ _ _ (hk kv (List.mem_cons_self _ _))]

/-- C5: a successful update whose payload sets only the field `F`
returns a record identical to the old one on every field other than `F`
and `updated_at`; in particular it never re-derives `subtotal` or
`total`. -/
theorem update_single_field_frame (store : List (Doc α)) (_id F : String) (v now : α)
    (d : Doc α)
    (hv : isValidId _id = true)
    (hfind : store.find? (fun e => e._id == _id) = some d) :
    ∃ d1 : Doc α, (update_by_id store _id [(F, v)] now).1 = .ok d1 ∧
      d1._id = d._id ∧
      ∀ k : String, k ≠ F → k ≠ "updated_at" →
        getField d1.fields k = getField d.fields k := by
  refine ⟨⟨d._id, applySet d.fields (setField [(F, v)] "updated_at" now)⟩, ?_, rfl, ?_⟩
  · simp [update_by_id, hv, hfind]
  · intro k hkF hku
    refine getField_applySet_of_not_mem _ _ _ ?_
    intro kv hkv
    rw [setField] at hkv
    by_cases hF : (F == "updated_at") = true
    · rw [if_pos hF] at hkv
      have h2 : kv = ("updated_at", now) := by simpa using hkv
      rw [h2]
      exact fun h3 => hku h3.symm
    · rw [if_neg hF] at hkv
      rcases (by simpa [setField] using hkv : kv = (F, v) ∨ kv = ("updated_at", now)) with h2 | h2 <;>
        rw [h2]
      · exact fun h3 => hkF h3.symm
      · exact fun h3 => hku h3.symm

/-- An existing document used by the update and delete witnesses. -/
def exDocN : Doc Nat := ⟨vid, [("a", 1), ("b", 2)]⟩

/-- C5 witness: updating only `"a"` on `exDocN` leaves `"b"`
untouched. -/
theorem update_single_field_frame_witness :
    isValidId vid = true ∧
    [exDocN].find? (fun e => e._id == vid) = some exDocN ∧
    ∃ d1 : Doc Nat, (update_by_id [exDocN] vid [("a", 9)] 7).1 = .ok d1 ∧
      d1._id = exDocN._id ∧
      ∀ k : String, k ≠ "a" → k ≠ "updated_at" →
        getField d1.fields k = getField exDocN.fields k :=
  ⟨by decide, by decide,
    update_single_field_frame [exDocN] vid "a" 9 7 exDocN (by decide) (by decide)⟩

/-! ## C7: delete succeeds once, then NotFound -/

/-- After removing the first document with a given id from a store whose
ids are pairwise distinct, no document with that id remains. -/
theorem any_removeFirst_eq_false (store : List (Doc α)) (_id : String)
    (hnd : (store.map Doc._id).Nodup) :
    (removeFirst store _id).any (fun d => d._id == _id) = false := by
  induction store with
  | nil => rfl
  | cons d t ih =>
    rw [List.map_cons, List.nodup_cons] at hnd
    rw [removeFirst]
    by_cases hd : (d._id == _id) = true
    · rw [if_pos hd]
      have h2 : d._id = _id := by simpa using hd
      subst h2
      rw [List.any_eq_false]
      intro e he
      simp only [beq_iff_eq]
      intro h3
      exact hnd.1 (h3 ▸ List.mem_map_of_mem Doc._id he)
    · rw [if_neg hd, List.any_cons, ih hnd.2, Bool.or_false]
      simpa using hd

/-- C7: on a store with pairwise-distinct ids, the first delete of an
existing id succeeds (removing the document), and a second delete of the
same id returns the 404 NotFound error, leaving the store unchanged. -/
theorem delete_then_delete_not_found (store : List (Doc α)) (_id : String)
    (hv : isValidId _id = true)
    (hmem : store.any (fun d => d._id == _id) = true)
    (hnd : (store.map Doc._id).Nodup) :
    delete_by_id store _id = (.ok true, removeFirst store _id) ∧
    delete_by_id (removeFirst store _id) _id =
      (.error ⟨404, "Not found"⟩, removeFirst store _id) := by
  constructor
  · simp [delete_by_id, hv, hmem]
  · simp [delete_by_id, hv, any_removeFirst_eq_false store _id hnd]

/-- C7 witness: deleting `exDocN` twice from the one-document store. -/
theorem delete_then_delete_not_found_witness :
    isValidId vid = true ∧
    [exDocN].any (fun d => d._id == vid) = true ∧
    delete_by_id [exDocN] vid = (.ok true, removeFirst [exDocN] vid) ∧
    delete_by_id (removeFirst [exDocN] vid) vid =
      (.error ⟨404, "Not found"⟩, removeFirst [exDocN] vid) :=
  ⟨by decide, by decide,
    delete_then_delete_not_found [exDocN] vid (by decide) (by decide) (by decide)⟩

/-! ## C8 / C10: the list endpoints -/

/-- A string other than `""` is not empty. -/
theorem isEmpty_eq_false_of_ne (y : String) (hy : y ≠ "") : y.isEmpty = false := by
  cases h2 : y.isEmpty
  · rfl
  · exact absurd ((String.isEmpty_iff y).mp h2) hy

/-- A nonempty string is truthy. -/
theorem truthy_some_of_ne (y : String) (hy : y ≠ "") : truthy (some y) = true := by
  simp [truthy, isEmpty_eq_false_of_ne y hy]

/-- Exact-equality, AND-combined matching of the supplied filters, as
the spec words it: a supplied `employee_id`/`status` filter must match
the record's field exactly, an absent one matches everything. -/
def suppliedFiltersMatch (eid sid : Option String) (d : Stored Quotation) : Bool :=
  (match eid with
   | none => true
   | some e => d.data.employee_id == e) &&
  (match sid with
   | none => true
   | some s => statusStr d.data.status == s)

/-- `newestFirst` is transitive. -/
theorem newestFirst_trans (a b c : Stored β) :
    newestFirst a b = true → newestFirst b c = true → newestFirst a c = true := by
  simp only [newestFirst, decide_eq_true_eq]
  omega

/-- `newestFirst` is total. -/
theorem newestFirst_total (a b : Stored β) :
    (newestFirst a b || newestFirst b a) = true := by
  simp only [newestFirst, Bool.or_eq_true, decide_eq_true_eq]
  omega

/-- C8: listing quotations with supplied (nonempty) filters returns a
permutation of exactly the stored records matching every supplied filter
by exact equality, AND-combined, and the result is ordered
newest-created-first. -/
theorem list_quotations_filters_and_sorts (eid sid : Option String)
    (store l : List (Stored Quotation))
    (he : ∀ s, eid = some s → s ≠ "")
    (hs : ∀ s, sid = some s → s ≠ "")
    (hl : list_quotations eid sid store = .ok l) :
    l.Perm (store.filter (suppliedFiltersMatch eid sid)) ∧
    List.Pairwise (fun a b => b.created_at ≤ a.created_at) l := by
  have heq : store.filter (quotationMatches eid sid)
      = store.filter (suppliedFiltersMatch eid sid) := by
    refine List.filter_congr ?_
    intro d hd
    cases eid with
    | none =>
      cases sid with
      | none => rfl
      | some s =>
        simp [quotationMatches, suppliedFiltersMatch, truthy,
          isEmpty_eq_false_of_ne s (hs s rfl)]
    | some e =>
      cases sid with
      | none =>
        simp [quotationMatches, suppliedFiltersMatch, truthy,
          isEmpty_eq_false_of_ne e (he e rfl)]
      | some s =>
        simp [quotationMatches, suppliedFiltersMatch, truthy,
          isEmpty_eq_false_of_ne e (he e rfl), isEmpty_eq_false_of_ne s (hs s rfl)]
  rw [list_quotations] at hl
  injection hl with hl1
  subst hl1
  constructor
  · have h2 : (store.filter (quotationMatches eid sid)).Perm
        (store.filter (suppliedFiltersMatch eid sid)) := by
      rw [heq]
    exact (List.mergeSort_perm _ _).trans h2
  · exact (List.sorted_mergeSort newestFirst_trans newestFirst_total _).imp
      (fun h => by simpa [newestFirst] using h)

/-- C8 witness: filtering `[exDoc]` by its employee id. -/
theorem list_quotations_filters_and_sorts_witness :
    (∀ s : String, some vid = some s → s ≠ "") ∧
    list_quotations (some vid) none [exDoc] = .ok [exDoc] ∧
    [exDoc].Perm ([exDoc].filter (suppliedFiltersMatch (some vid) none)) ∧
    List.Pairwise (fun a b : Stored Quotation => b.created_at ≤ a.created_at) [exDoc] := by
  have he : ∀ s : String, some vid = some s → s ≠ "" := by
    intro s h1
    injection h1 with h3
    rw [← h3]
    decide
  have hs : ∀ s : String, (none : Option String) = some s → s ≠ "" := by
    intro s h1
    cases h1
  have hl : list_quotations (some vid) none [exDoc] = .ok [exDoc] := by
    rw [list_quotations]
    norm_num [quotationMatches, exDoc, exQ1, truthy]
  exact ⟨he, hl,
    (list_quotations_filters_and_sorts (some vid) none [exDoc] [exDoc] he hs hl).1,
    (list_quotations_filters_and_sorts (some vid) none [exDoc] [exDoc] he hs hl).2⟩

/-- C10: an empty-string filter query parameter is falsy in Python, so
the filter key is never added to the query: the result is the same as
with no filter, and every record of the collection is returned. -/
theorem empty_string_filter_treated_as_absent (store : List (Stored Quotation))
    (ustore : List (Stored User)) :
    list_quotations (some "") (some "") store = list_quotations none none store ∧
    (∃ l : List (Stored Quotation),
      list_quotations (some "") (some "") store = .ok l ∧ l.Perm store) ∧
    list_users (some "") ustore = list_users none ustore ∧
    (list_users (some "") ustore).Perm ustore := by
  have hq : store.filter (quotationMatches (some "") (some "")) = store :=
    List.filter_eq_self.mpr (fun d hd => rfl)
  have hq2 : store.filter (quotationMatches none none) = store :=
    List.filter_eq_self.mpr (fun d hd => rfl)
  have hu : ustore.filter (fun d => !truthy (some "") || d.data.role == (some "").getD "") = ustore :=
    List.filter_eq_self.mpr (fun d hd => rfl)
  have hu2 : ustore.filter (fun d => !truthy none || d.data.role == (none : Option String).getD "") = ustore :=
    List.filter_eq_self.mpr (fun d hd => rfl)
  refine ⟨?_, ⟨store.mergeSort newestFirst, ?_, ?_⟩, ?_, ?_⟩
  · rw [list_quotations, list_quotations, hq, hq2]
  · rw [list_quotations, hq]
  · exact List.mergeSort_perm store newestFirst
  · rw [list_users, list_users, hu, hu2]
  · rw [list_users, hu]
    exact List.mergeSort_perm ustore newestFirst

end QuotationAPI
